import Mathlib

/-!
Shallow embedding of the udactiy-voting-booth backend (Python) in Lean 4.

The embedding follows the source files under `backend/main/` function by
function.  Python-specific semantics that the source relies on are made
explicit as small named definitions (`pyStrip`, `pyReplace`, `enumEqStr`,
truthiness of `Optional[str]`, ...).  Exceptions are modelled with
`Except PyErr`; an operation that mutates the store returns the store it
leaves behind, including the store at the moment an exception escapes.
-/

/-- Python exception kinds that the modelled code can raise. -/
inductive PyErr
  | typeError          -- e.g. subscripting `None`
  | attributeError     -- e.g. `"...".value` on a `str`
  | valueError         -- e.g. `max(())` on an empty collection
  | integrityError     -- sqlite UNIQUE/PRIMARY KEY violation, or AES tag failure
  deriving DecidableEq, Repr

/-- Python whitespace recognised by `str.strip()` (ASCII subset). -/
def isPySpace (c : Char) : Bool :=
  c = ' ' || c = '\t' || c = '\n' || c = '\r' || c = '\x0b' || c = '\x0c'

/-- Python `str.strip()`: drop leading and trailing whitespace. -/
def pyStripL (s : List Char) : List Char :=
  ((s.dropWhile isPySpace).reverse.dropWhile isPySpace).reverse

/-- Python `str.strip()` on `String`. -/
def pyStrip (s : String) : String :=
  String.mk (pyStripL s.data)

/-- Python `str.replace(pat, repl)`: replace every non-overlapping occurrence
left to right.  An empty pattern inserts `repl` at every position, as in
Python (`"ab".replace("", "X") = "XaXbX"`).  Structural recursion on a fuel
counter; with `fuel ≥ s.length` the fuel-exhaustion arm is unreachable
because every step consumes at least one character of `s`. -/
def pyReplaceAux (repl pat : List Char) : Nat → List Char → List Char
  | _, [] => if pat.isEmpty then repl else []
  | 0, s => s
  | fuel + 1, c :: s' =>
    if pat.isEmpty then repl ++ c :: pyReplaceAux repl pat fuel s'
    else if pat.isPrefixOf (c :: s') then
      repl ++ pyReplaceAux repl pat fuel ((c :: s').drop pat.length)
    else c :: pyReplaceAux repl pat fuel s'

/-- Python `str.replace` on character lists. -/
def pyReplace (repl s pat : List Char) : List Char :=
  pyReplaceAux repl pat s.length s

/-- Python `str.replace` on `String`s. -/
def pyReplaceS (s pat repl : String) : String :=
  String.mk (pyReplace repl.data s.data pat.data)

/-- Does `pat` occur as a contiguous substring of `s`?  (Python `pat in s`;
the empty pattern occurs in every string.) -/
def containsSub (s pat : List Char) : Bool :=
  pat.isPrefixOf s ||
    match s with
    | [] => false
    | _ :: s' => containsSub s' pat

/-- Truthiness of a Python `Optional[str]` value: `None` and `""` are falsy. -/
def pyTruthyOptStr : Option String → Bool
  | none => false
  | some s => s ≠ ""

/-- Python `==` between an `Optional[str]` and a `str`: `None == s` is `False`. -/
def pyEqOptStr : Option String → String → Bool
  | none, _ => false
  | some t, s => t = s

/-- `VoterStatus` from `backend/main/objects/voter.py`. -/
inductive VoterStatus
  | notRegistered
  | registeredNotVoted
  | ballotCounted
  | fraudCommitted
  deriving DecidableEq, Repr

/-- The `.value` string of each `VoterStatus` member (source `voter.py`). -/
def VoterStatus.value : VoterStatus → String
  | .notRegistered => "not registered"
  | .registeredNotVoted => "registered, but no ballot received"
  | .ballotCounted => "ballot counted"
  | .fraudCommitted => "fraud committed"

/-- `BallotStatus` from `backend/main/objects/voter.py`. -/
inductive BallotStatus
  | voterBallotMismatch
  | invalidBallot
  | fraudCommitted
  | voterNotRegistered
  | ballotCounted
  deriving DecidableEq, Repr

/-- The `.value` string of each `BallotStatus` member (source `voter.py`). -/
def BallotStatus.value : BallotStatus → String
  | .voterBallotMismatch => "the ballot doesn't belong to the voter specified"
  | .invalidBallot => "the ballot given is invalid"
  | .fraudCommitted => "fraud committed: the voter has already voted"
  | .voterNotRegistered => "voter not registered"
  | .ballotCounted => "ballot counted"

/-- Python `==` between a `VoterStatus` enum member and a plain `str`.
`VoterStatus` derives from `enum.Enum`, which defines no `__eq__` against
strings, so the comparison falls back to object identity and is always
`False` — an enum member is never equal to its own `.value` string.  This is
the comparison `balloting.count_ballot` performs at lines 53 and 62. -/
def enumEqStr (_v : VoterStatus) (_s : String) : Bool := false

/-- Python `==` between two `VoterStatus` enum members (identity on members). -/
def enumEqEnum (v w : VoterStatus) : Bool := v = w

/-- The Python argument passed to `VotingStore.update_voter_status` /
`add_voter`: the callers in `balloting.py` pass `.value` strings while
`registry.py` passes enum members, and the store method calls `.value` on
whatever it receives. -/
inductive PyStatusArg
  | enum (v : VoterStatus)
  | str (s : String)
  deriving DecidableEq, Repr

/-! ## Identity protection (`backend/main/objects/voter.py`) -/

/-- Sanitization inside `obfuscate_national_id`:
`national_id.replace("-", "").replace(" ", "").strip()`. -/
def sanitizeId (nid : String) : String :=
  pyStrip (pyReplaceS (pyReplaceS nid "-" "") " " "")

/-- `obfuscate_national_id`: deterministic AES-SIV (no nonce) of the sanitized
ID under a fixed process-wide key, base64-encoded.  The keyed deterministic
transform is modelled as the injective tagged function
`"OBF:" ++ sanitizeId nid`; like the real cipher it is deterministic,
injective on sanitized IDs, and NOT idempotent (obfuscating an already
obfuscated token yields a different token, which matters because
`count_ballot` passes an already obfuscated ID to `get_voter_status`). -/
def obfuscate_national_id (nid : String) : String :=
  "OBF:" ++ sanitizeId nid

/-- The `{ciphertext, tag, nonce}` bundle produced by `encrypt_name`
(each field base64-encoded and JSON-serialized in the source).  AES-SIV with
a fixed key and a given nonce is a bijection on messages; we model the
bijection as the identity, so `ciphertext` holds the string the bundle
decrypts to. -/
structure NameBundle where
  ciphertext : String
  tag : String
  nonce : String
  deriving DecidableEq, Repr

/-- The modelled AES-SIV authentication tag over (message, nonce) under the
fixed `SECRET_NAME_KEY`. -/
def tagOf (msg nonce : String) : String :=
  "TAG:" ++ msg ++ ":" ++ nonce

/-- `encrypt_name`: strips the input, then encrypts non-deterministically
with a fresh random nonce.  The randomness is made explicit: the nonce drawn
by `get_random_bytes` is a parameter. -/
def encrypt_name (name : String) (nonce : String) : NameBundle :=
  let stripped := pyStrip name
  ⟨stripped, tagOf stripped nonce, nonce⟩

/-- `decrypt_name`: verifies the tag and returns the plaintext; raises
(`IntegrityError`, modelled as `PyErr.integrityError`) if the tag does not
verify. -/
def decrypt_name (b : NameBundle) : Except PyErr String :=
  if b.tag = tagOf b.ciphertext b.nonce then .ok b.ciphertext
  else .error .integrityError

/-- Modelled from the spec: `decrypt_national_id` is imported by
`pii_detection.py` from `backend.main.objects.voter`, where it does not
appear in the provided sources.  Per spec §4.1/§9 it inverts the
deterministic obfuscation, recovering the sanitized national ID from the
obfuscated token.  Its only use in `redact_free_text` feeds a `replace`
whose result is discarded. -/
def decrypt_national_id (token : String) : String :=
  String.mk (token.data.drop 4)

example : decrypt_national_id (obfuscate_national_id " 1-2 3") = "123" := by decide
example : pyStrip "  a b\t" = "a b" := by decide
example : pyReplaceS "1-2-3" "-" "" = "123" := by decide
example : pyReplaceS "ab" "" "X" = "XaXbX" := by decide
example : containsSub "hello".data "ell".data = true := by decide
example : containsSub "hello".data "elo".data = false := by decide
example : obfuscate_national_id (obfuscate_national_id "1-1") ≠
    obfuscate_national_id "1-1" := by decide

/-! ## Ballot binding (`backend/main/objects/ballot.py`, not in the provided
sources) and the data model of the store -/

/-- A ballot number: either the base64 encoding of the JSON object
`{salt, binding value}` (a well-formed binding token) or some other string
that fails to decode. -/
inductive BallotNumber
  | token (salt : String) (binding : String)
  | malformed (raw : String)
  deriving DecidableEq, Repr

/-- Modelled from the spec: the salted deterministic binding value of §4.2,
computed by the missing `backend/main/objects/ballot.py` from the sanitized
national ID and the per-ballot salt.  The keyed deterministic transform is a
PRF that, per the spec, yields distinct values for distinct inputs; we model
it by an injective function of the sanitized ID (the salt is compared
separately as part of the serialized token). -/
def bindingValue (sanitizedId _salt : String) : String :=
  sanitizedId

/-- Modelled from the spec: `generate_ballot_number` from the missing
`backend/main/objects/ballot.py`.  Per §4.2 it sanitizes the national ID
exactly as `obfuscate_national_id` does, computes the salted binding value,
and serializes `{salt, binding value}` as the ballot number.  The random
salt drawn when no salt is supplied is made explicit as a parameter. -/
def generate_ballot_number (nid : String) (salt : String) : BallotNumber :=
  .token salt (bindingValue (sanitizeId nid) salt)

/-- The `Ballot` object (missing `backend/main/objects/ballot.py`; its shape
is fixed by the constructor calls `Ballot(ballot_number, chosen_candidate_id,
voter_comments)` in `data_registry.py` and by the attribute accesses in
`balloting.py`).  Fields read from sqlite can be `NULL`, hence `Option`. -/
structure Ballot where
  ballot_number : BallotNumber
  chosen_candidate_id : Option String
  voter_comments : Option String
  deriving DecidableEq, Repr

/-- A plain Python object with no `__bool__`/`__len__` is always truthy;
`invalidate_ballot` tests `if ballot and ...` on a `Ballot` instance. -/
def Ballot.pyTruthy (_b : Ballot) : Bool := true

/-- A row of the `voters` table: `(obfuscated_national_id, obfuscated_first_name,
obfuscated_last_name, status)`.  The name columns hold serialized
`NameBundle`s (the serialization is a bijection, so we store the bundle);
the status column holds the `.value` string of a `VoterStatus`, and since
`VoterStatus.value` is injective we store the member itself. -/
structure VoterRow where
  first : NameBundle
  last : NameBundle
  status : VoterStatus
  deriving DecidableEq, Repr

/-- A row of the `ballots` table minus its primary key:
`(chosen_candidate_id, voter_comments, status)`; all three are `NULL` for a
freshly inserted ballot (`add_ballot` only supplies the ballot number). -/
structure BallotRow where
  chosen_candidate_id : Option String
  voter_comments : Option String
  status : Option String
  deriving DecidableEq, Repr

/-- Association-list lookup by primary key (first matching row). -/
def assocFind {α β : Type} [DecidableEq α] : List (α × β) → α → Option β
  | [], _ => none
  | (k, v) :: r, key => if k = key then some v else assocFind r key

/-- SQL `DELETE ... WHERE key = ?`: remove every row with the key. -/
def assocErase {α β : Type} [DecidableEq α] : List (α × β) → α → List (α × β)
  | [], _ => []
  | (k, v) :: r, key =>
    if k = key then assocErase r key else (k, v) :: assocErase r key

/-- SQL `UPDATE ... WHERE key = ?`: rewrite every row with the key
(no-op when the key is absent). -/
def assocUpdate {α β : Type} [DecidableEq α] (f : β → β) :
    List (α × β) → α → List (α × β)
  | [], _ => []
  | (k, v) :: r, key =>
    if k = key then (k, f v) :: assocUpdate f r key
    else (k, v) :: assocUpdate f r key

/-- The in-memory sqlite database behind `VotingStore`
(`backend/main/store/data_registry.py`).  Candidate ids are irrelevant to
every claim, so the `candidates` table is modelled by its list of names. -/
structure VotingStore where
  candidates : List String
  voters : List (String × VoterRow)
  ballots : List (BallotNumber × BallotRow)
  deriving DecidableEq, Repr

/-- `VotingStore.add_candidate`. -/
def VotingStore.add_candidate (st : VotingStore) (name : String) : VotingStore :=
  { st with candidates := st.candidates ++ [name] }

/-- `VotingStore.get_all_candidates` (names only; see `VotingStore`). -/
def VotingStore.get_all_candidates (st : VotingStore) : List String :=
  st.candidates

/-- `VotingStore.add_voter`: builds the parameter tuple — evaluating
`status.value`, which raises `AttributeError` if the caller passed a plain
string — then executes the INSERT, which raises `IntegrityError` when the
primary key already exists. -/
def VotingStore.add_voter (st : VotingStore) (obfid : String)
    (first last : NameBundle) (status : PyStatusArg) :
    Except PyErr VotingStore :=
  match status with
  | .str _ => .error .attributeError
  | .enum v =>
    if (assocFind st.voters obfid).isSome then .error .integrityError
    else .ok { st with voters := st.voters ++ [(obfid, ⟨first, last, v⟩)] }

/-- `VotingStore.get_voter`: returns the row, or `None` when absent.
The source builds a `MinimalVoter` from the row with positionally scrambled
name/ID fields (the constructor's parameter order differs from the call
site), but every caller in the sources reads only the object's truthiness
and its `status` field — the fourth positional argument, which is passed
correctly — so the row model is sufficient. -/
def VotingStore.get_voter (st : VotingStore) (obfid : String) :
    Option VoterRow :=
  assocFind st.voters obfid

/-- `VotingStore.update_voter_status`: evaluates `status.value` when building
the UPDATE parameters — an `AttributeError` when the caller passed a `.value`
string instead of the enum member — then rewrites the status column. -/
def VotingStore.update_voter_status (st : VotingStore) (obfid : String)
    (status : PyStatusArg) : Except PyErr VotingStore :=
  match status with
  | .str _ => .error .attributeError
  | .enum v =>
    .ok { st with
          voters := assocUpdate (fun r => { r with status := v }) st.voters obfid }

/-- `VotingStore.delete_voter`. -/
def VotingStore.delete_voter (st : VotingStore) (obfid : String) : VotingStore :=
  { st with voters := assocErase st.voters obfid }

/-- `VotingStore.get_all_voters` (no status filter is ever passed in the
sources). -/
def VotingStore.get_all_voters (st : VotingStore) : List (String × VoterRow) :=
  st.voters

/-- `VotingStore.add_ballot`: INSERT of the ballot number alone; the other
three columns are left `NULL`.  Raises `IntegrityError` on a duplicate key. -/
def VotingStore.add_ballot (st : VotingStore) (bn : BallotNumber) :
    Except PyErr VotingStore :=
  if (assocFind st.ballots bn).isSome then .error .integrityError
  else .ok { st with ballots := st.ballots ++ [(bn, ⟨none, none, none⟩)] }

/-- `VotingStore.get_ballot`: fetches the row and builds
`(Ballot(...), ballot_row[3])`.  When no row exists, `fetchone()` returns
`None` and the unguarded `ballot_row[1]` subscription raises `TypeError`
('NoneType' object is not subscriptable). -/
def VotingStore.get_ballot (st : VotingStore) (bn : BallotNumber) :
    Except PyErr (Ballot × Option String) :=
  match assocFind st.ballots bn with
  | none => .error .typeError
  | some row => .ok (⟨bn, row.chosen_candidate_id, row.voter_comments⟩, row.status)

/-- `VotingStore.delete_ballot`. -/
def VotingStore.delete_ballot (st : VotingStore) (bn : BallotNumber) :
    VotingStore :=
  { st with ballots := assocErase st.ballots bn }

/-- `VotingStore.update_ballot`: rewrites candidate, comments and status of
the row (the status parameter is used directly, without `.value`). -/
def VotingStore.update_ballot (st : VotingStore) (bn : BallotNumber)
    (cand comments status : Option String) : VotingStore :=
  { st with
    ballots := assocUpdate
      (fun r => { r with chosen_candidate_id := cand, voter_comments := comments,
                         status := status }) st.ballots bn }

/-- `VotingStore.get_all_ballots`. -/
def VotingStore.get_all_ballots (st : VotingStore) :
    List (Ballot × Option String) :=
  st.ballots.map fun e =>
    (⟨e.1, e.2.chosen_candidate_id, e.2.voter_comments⟩, e.2.status)

/-! ## PII redaction (`backend/main/detection/pii_detection.py`)

A small regex engine sufficient for the five concrete patterns the source
uses.  Matching follows Python `re` semantics for these patterns: at a given
start position the engine tries alternatives in order, quantifiers are
greedy with backtracking, and `re.sub`/`re.findall` scan for the leftmost
match, then continue after it. -/

/-- Python `\d` (ASCII). -/
def isDigitC (c : Char) : Bool := c.isDigit

/-- Python `\s` (ASCII subset): `[ \t\n\r\f\v]`. -/
def isSpaceC (c : Char) : Bool := isPySpace c

/-- Python `\w` (ASCII): `[A-Za-z0-9_]`. -/
def isWordC (c : Char) : Bool := c.isAlphanum || c = '_'

/-- One item of a regular expression, in the fragment the source needs. -/
inductive RItem
  | cls (p : Char → Bool)              -- a single character from a class
  | opt (p : Char → Bool)              -- `X?` for a single-character `X`, greedy
  | rep (p : Char → Bool) (n : Nat)    -- `X{n}` for a character class `X`
  | plus (p : Char → Bool)             -- `X+` for a character class `X`, greedy
  | repAtLeast (p : Char → Bool) (n : Nat)  -- `X{n,}`, greedy
  | wordB                              -- `\b`

/-- Greedy quantifier backtracking: try consuming `k` characters (all known
to lie in the class), then `k - 1`, ..., down to `lo`; `cont` receives the
character preceding the remainder (for `\b`) and the remainder.  -/
def tryLens (cont : Option Char → List Char → Option (List Char))
    (s : List Char) (lo : Nat) : Nat → Option (List Char)
  | 0 => none
  | k + 1 =>
    if k + 1 < lo then none
    else
      match cont s[k]? (s.drop (k + 1)) with
      | some r => some r
      | none => tryLens cont s lo k

/-- Consume exactly `n` characters of class `p`, tracking the last consumed
character. -/
def consumeN (p : Char → Bool) : Nat → Option Char → List Char →
    Option (Option Char × List Char)
  | 0, prev, s => some (prev, s)
  | _ + 1, _, [] => none
  | n + 1, _prev, c :: s => if p c then consumeN p n (some c) s else none

/-- Is there a word boundary between `prev` and the head of `s`? -/
def atWordBoundary (prev : Option Char) (s : List Char) : Bool :=
  let pw := match prev with | some c => isWordC c | none => false
  let nw := match s with | c :: _ => isWordC c | [] => false
  pw != nw

/-- Match a sequence of items against a prefix of `s` (with `prev` the
character just before `s`, for word boundaries); returns the remainder of a
successful match, following Python's ordered/greedy backtracking. -/
def matchItems : List RItem → Option Char → List Char → Option (List Char)
  | [], _, s => some s
  | .cls p :: rest, _, c :: s => if p c then matchItems rest (some c) s else none
  | .cls _ :: _, _, [] => none
  | .opt p :: rest, prev, s =>
    match s with
    | c :: s' =>
      if p c then
        match matchItems rest (some c) s' with
        | some r => some r
        | none => matchItems rest prev s
      else matchItems rest prev s
    | [] => matchItems rest prev []
  | .rep p n :: rest, prev, s =>
    match consumeN p n prev s with
    | some (prev', s') => matchItems rest prev' s'
    | none => none
  | .plus p :: rest, _prev, s =>
    match (s.takeWhile p).length with
    | 0 => none
    | m + 1 =>
      match s with
      | [] => none
      | _ :: _ => tryLens (fun pr s' => matchItems rest pr s') s 1 (m + 1)
  | .repAtLeast p n :: rest, _prev, s =>
    tryLens (fun pr s' => matchItems rest pr s') s n ((s.takeWhile p).length)
  | .wordB :: rest, prev, s =>
    if atWordBoundary prev s then matchItems rest prev s else none

/-- `re.sub(pat, repl, text)` for a pattern that cannot match the empty
string: scan left to right, replace each leftmost match and continue after
it.  Fuel-structured; with `fuel ≥ s.length` the exhaustion arm is
unreachable because every step consumes at least one character. -/
def scanSubAux (pat : List RItem) (repl : List Char) :
    Nat → Option Char → List Char → List Char
  | 0, _, s => s
  | _ + 1, _, [] => []
  | fuel + 1, prev, c :: s =>
    match matchItems pat prev (c :: s) with
    | some r =>
      if r.length < (c :: s).length then
        repl ++ scanSubAux pat repl fuel ((c :: s)[(c :: s).length - r.length - 1]?) r
      else
        c :: scanSubAux pat repl fuel (some c) s
    | none => c :: scanSubAux pat repl fuel (some c) s

/-- `re.sub` on `String`s (initial `prev` is `None`: start of string). -/
def reSub (pat : List RItem) (repl text : String) : String :=
  String.mk (scanSubAux pat repl.data text.data.length none text.data)

/-- `re.findall(pat, text)` for patterns without groups: the list of matched
substrings, scanning as `re.sub` does. -/
def scanFindAux (pat : List RItem) :
    Nat → Option Char → List Char → List (List Char)
  | 0, _, _ => []
  | _ + 1, _, [] => []
  | fuel + 1, prev, c :: s =>
    match matchItems pat prev (c :: s) with
    | some r =>
      if r.length < (c :: s).length then
        (c :: s).take ((c :: s).length - r.length) ::
          scanFindAux pat fuel ((c :: s)[(c :: s).length - r.length - 1]?) r
      else
        scanFindAux pat fuel (some c) s
    | none => scanFindAux pat fuel (some c) s

/-- `re.findall` on a `String`. -/
def reFindall (pat : List RItem) (text : String) : List String :=
  (scanFindAux pat text.data.length none text.data).map String.mk

/-- `r'\(?\d{3}\)?[-\s]?\d{3}[-\s]?\d{4}'` (source line 34). -/
def phonePattern : List RItem :=
  [.opt (· = '('), .rep isDigitC 3, .opt (· = ')'),
   .opt (fun c => c = '-' || isSpaceC c), .rep isDigitC 3,
   .opt (fun c => c = '-' || isSpaceC c), .rep isDigitC 4]

/-- `r'\b[A-Za-z0-9._%+-]+@[A-Za-z0-9.-]+\.[A-Za-z]{2,}\b'` (source line 35). -/
def emailPattern : List RItem :=
  [.wordB,
   .plus (fun c => c.isAlphanum || c = '.' || c = '_' || c = '%' || c = '+' || c = '-'),
   .cls (· = '@'),
   .plus (fun c => c.isAlphanum || c = '.' || c = '-'),
   .cls (· = '.'),
   .repAtLeast Char.isAlpha 2,
   .wordB]

/-- `r'\b\d{9}\b'` (source line 37). -/
def nationalIdPattern0 : List RItem :=
  [.wordB, .rep isDigitC 9, .wordB]

/-- `r'\d+-+\d+-+\d+'` (source line 38). -/
def nationalIdPattern1 : List RItem :=
  [.plus isDigitC, .plus (· = '-'), .plus isDigitC, .plus (· = '-'), .plus isDigitC]

/-- `r'\d+\s+\d+\s+\d+'` (source line 39). -/
def nationalIdPattern2 : List RItem :=
  [.plus isDigitC, .plus isSpaceC, .plus isDigitC, .plus isSpaceC, .plus isDigitC]

/-- Fixed marker strings (source lines 6–9). -/
def REDACTED_PHONE_NUMBER : String := "[REDACTED PHONE NUMBER]"

/-- Fixed marker string for names. -/
def REDACTED_NAME : String := "[REDACTED NAME]"

/-- Fixed marker string for emails. -/
def REDACTED_EMAIL : String := "[REDACTED EMAIL]"

/-- Fixed marker string for national IDs. -/
def REDACTED_NATIONAL_ID : String := "[REDACTED NATIONAL ID]"

/-- Remove duplicates keeping first occurrences — Python's `set(...)` loses
order and duplicates; its iteration order is modelled as first-occurrence
order (the choice is observable only when one name is a substring of the
text after another was replaced, which no claim exercises). -/
def dedupAux : List String → List String → List String
  | [], _ => []
  | x :: xs, seen =>
    if x ∈ seen then dedupAux xs seen else x :: dedupAux xs (x :: seen)

/-- First-occurrence deduplication. -/
def dedupL (l : List String) : List String := dedupAux l []

/-- Decrypt one name column of every stored voter, in store order,
propagating the first `IntegrityError` — the evaluation
`set(map(lambda voter: decrypt_name(voter.obfuscated_first_name), voter_list))`
performs. -/
def decryptAll (get : VoterRow → NameBundle) :
    List (String × VoterRow) → Except PyErr (List String)
  | [] => .ok []
  | v :: vs => do
    let n ← decrypt_name (get v.2)
    let ns ← decryptAll get vs
    return n :: ns

/-- `redact_free_text` (source lines 12–52).  Decrypts every stored first and
last name (propagating any `IntegrityError`), collects candidate names,
replaces literal occurrences of each name with `REDACTED_NAME`, then applies
the phone and email `re.sub` passes and the three national-ID
findall-then-replace passes.  The pass over decrypted national IDs at source
lines 31–32 computes `redacted_text.replace(...)` but discards the result,
so it does not appear in the returned value. -/
def redact_free_text (st : VotingStore) (free_text : String) :
    Except PyErr String :=
  let voter_list := st.get_all_voters
  match decryptAll (fun r => r.first) voter_list with
  | .error e => .error e
  | .ok first_names =>
  match decryptAll (fun r => r.last) voter_list with
  | .error e => .error e
  | .ok last_names =>
  let _national_id_set := voter_list.map fun v => decrypt_national_id v.1
  let candidate_names := st.get_all_candidates
  let t1 := (dedupL first_names).foldl
    (fun t n => pyReplaceS t n REDACTED_NAME) free_text
  let t2 := (dedupL last_names).foldl
    (fun t n => pyReplaceS t n REDACTED_NAME) t1
  let t3 := (dedupL candidate_names).foldl
    (fun t n => pyReplaceS t n REDACTED_NAME) t2
  -- source line 32: `redacted_text.replace(national_id, REDACTED_NATIONAL_ID)`
  -- is computed for each decrypted national ID but never assigned; no effect.
  let t4 := reSub phonePattern REDACTED_PHONE_NUMBER t3
  let t5 := reSub emailPattern REDACTED_EMAIL t4
  let t6 := (reFindall nationalIdPattern0 t5).foldl
    (fun t m => pyReplaceS t m REDACTED_NATIONAL_ID) t5
  let t7 := (reFindall nationalIdPattern1 t6).foldl
    (fun t m => pyReplaceS t m REDACTED_NATIONAL_ID) t6
  let t8 := (reFindall nationalIdPattern2 t7).foldl
    (fun t m => pyReplaceS t m REDACTED_NATIONAL_ID) t7
  .ok t8

example :
    reSub phonePattern REDACTED_PHONE_NUMBER "call 555-123-4567 now" =
      "call [REDACTED PHONE NUMBER] now" := by decide
example :
    reSub emailPattern REDACTED_EMAIL "hi a.b@x.co !" = "hi [REDACTED EMAIL] !" := by
  decide
example :
    reFindall nationalIdPattern1 "id 12-34-56 ok" = ["12-34-56"] := by decide
example :
    reFindall nationalIdPattern0 "num 123456789." = ["123456789"] := by decide

/-! ## Voter registry API (`backend/main/api/registry.py`) -/

/-- The transient `Voter` object (raw registration data). -/
structure Voter where
  first_name : String
  last_name : String
  national_id : String
  deriving DecidableEq, Repr

/-- `register_voter`: converts to a `MinimalVoter` (encrypting both names
with fresh nonces, made explicit as parameters) and INSERTs the row with
status `REGISTERED_NOT_VOTED`; any exception yields `False`. -/
def register_voter (st : VotingStore) (v : Voter) (nonce1 nonce2 : String) :
    Bool × VotingStore :=
  let first := encrypt_name (pyStrip v.first_name) nonce1
  let last := encrypt_name (pyStrip v.last_name) nonce2
  let obfid := obfuscate_national_id v.national_id
  match st.add_voter obfid first last (.enum .registeredNotVoted) with
  | .ok st' => (true, st')
  | .error _ => (false, st)

/-- `get_voter_status`: obfuscates its argument, looks the voter up, and
returns `minimal_voter.status` — a `VoterStatus` *enum member* — or the
member `VoterStatus.NOT_REGISTERED` when absent (despite the `-> str`
annotation, no `.value` is taken on either branch). -/
def get_voter_status (st : VotingStore) (voter_national_id : String) :
    VoterStatus :=
  match st.get_voter (obfuscate_national_id voter_national_id) with
  | some r => r.status
  | none => .notRegistered

/-- `de_register_voter`: deletes the voter unless absent or marked
`FRAUD_COMMITTED` (this comparison is enum-to-enum and behaves correctly). -/
def de_register_voter (st : VotingStore) (voter_national_id : String) :
    Bool × VotingStore :=
  let obfid := obfuscate_national_id voter_national_id
  match st.get_voter obfid with
  | some r =>
    if enumEqEnum r.status .fraudCommitted then (false, st)
    else (true, st.delete_voter obfid)
  | none => (false, st)

/-- `register_candidate` (wraps `add_candidate`). -/
def register_candidate (st : VotingStore) (name : String) : VotingStore :=
  st.add_candidate name

/-! ## Balloting API (`backend/main/api/balloting.py`) -/

/-- `issue_ballot`: if the voter exists, mint a binding token (the fresh
random salt is an explicit parameter) and INSERT the uncast ballot row;
on any exception — including a duplicate ballot number — return `None`
with the store unchanged by this call. -/
def issue_ballot (st : VotingStore) (voter_national_id : String)
    (salt : String) : Option BallotNumber × VotingStore :=
  let obfid := obfuscate_national_id voter_national_id
  match st.get_voter obfid with
  | some _ =>
    let bn := generate_ballot_number voter_national_id salt
    match st.add_ballot bn with
    | .ok st' => (some bn, st')
    | .error _ => (none, st)
  | none => (none, st)

/-- `verify_ballot`: inside a catch-all `try`, fetch the ballot (a missing
row raises and is swallowed, giving `False`), base64/JSON-decode the ballot
number (a malformed number raises and is swallowed), extract the salt,
regenerate the token for the supplied national ID with that salt, and
compare for equality.  Always returns a `bool`, never raises. -/
def verify_ballot (st : VotingStore) (voter_national_id : String)
    (ballot_number : BallotNumber) : Bool :=
  match st.get_ballot ballot_number with
  | .error _ => false
  | .ok _ =>
    match ballot_number with
    | .malformed _ => false
    | .token salt _ =>
      generate_ballot_number voter_national_id salt = ballot_number

/-- `invalidate_ballot`: inside a catch-all `try`, fetch the ballot row and
test `ballot and status and status == "" and ballot.voter_comments == "" and
ballot.chosen_candidate_id == ""`; on success DELETE the row and return
`True`, otherwise (or on exception) return `False`. -/
def invalidate_ballot (st : VotingStore) (ballot_number : BallotNumber) :
    Bool × VotingStore :=
  match st.get_ballot ballot_number with
  | .error _ => (false, st)
  | .ok (ballot, status) =>
    if ballot.pyTruthy && pyTruthyOptStr status && pyEqOptStr status "" &&
        pyEqOptStr ballot.voter_comments "" &&
        pyEqOptStr ballot.chosen_candidate_id "" then
      (true, st.delete_ballot ballot_number)
    else (false, st)

/-- `count_ballot` (source lines 35–73), step for step:
obfuscate the national ID; call `get_voter_status` **on the already
obfuscated ID** (which therefore looks up the doubly obfuscated key);
compare the returned enum member against `.value` strings (`enumEqStr`);
fetch the ballot row (raising `TypeError` when absent — uncaught here);
check `verify_ballot`; on the fraud branch call `update_voter_status` with
the string `VoterStatus.FRAUD_COMMITTED.value` (which raises
`AttributeError` inside the store) and then `invalidate_ballot`; on the
success branch redact the comments, UPDATE the ballot row and call
`update_voter_status` with the string `VoterStatus.BALLOT_COUNTED.value`.
The returned store is the state at normal return or at the uncaught raise. -/
def count_ballot (st : VotingStore) (ballot : Ballot)
    (voter_national_id : String) : Except PyErr BallotStatus × VotingStore :=
  let obfuscated_national_id := obfuscate_national_id voter_national_id
  let voter_status := get_voter_status st obfuscated_national_id
  if enumEqStr voter_status VoterStatus.notRegistered.value then
    (.ok .voterNotRegistered, st)
  else
    match st.get_ballot ballot.ballot_number with
    | .error e => (.error e, st)
    | .ok (existing_ballot, _status) =>
      if !existing_ballot.pyTruthy then (.ok .invalidBallot, st)
      else if !verify_ballot st voter_national_id ballot.ballot_number then
        (.ok .voterBallotMismatch, st)
      else if !enumEqStr voter_status VoterStatus.registeredNotVoted.value then
        match st.update_voter_status obfuscated_national_id
            (.str VoterStatus.fraudCommitted.value) with
        | .error e => (.error e, st)
        | .ok st1 =>
          let (_, st2) := invalidate_ballot st1 ballot.ballot_number
          (.ok .fraudCommitted, st2)
      else
        match ballot.voter_comments with
        | none => (.error .typeError, st)  -- `None[:]` inside redact_free_text
        | some comments =>
        match redact_free_text st comments with
        | .error e => (.error e, st)
        | .ok redacted =>
          let st1 := st.update_ballot ballot.ballot_number
            ballot.chosen_candidate_id (some redacted)
            (some BallotStatus.ballotCounted.value)
          match st1.update_voter_status obfuscated_national_id
              (.str VoterStatus.ballotCounted.value) with
          | .error e => (.error e, st1)
          | .ok st2 => (.ok .ballotCounted, st2)

/-- `compute_election_winner`'s tally dictionary: Python `dict` keyed by
`chosen_candidate_id` (which may be `None`), insertion-ordered;
`dict.get(id, 0) + 1` then `dict.update`. -/
def tallyInsert (d : List (Option String × Nat)) (k : Option String) :
    List (Option String × Nat) :=
  match assocFind d k with
  | some n => assocUpdate (fun _ => n + 1) d k
  | none => d ++ [(k, 1)]

/-- Python `max(dict, key=lambda id: dict[id])`: iterates keys in insertion
order, returns the first key attaining the maximal value; raises
`ValueError` on an empty dictionary. -/
def pyMaxByCount : List (Option String × Nat) → Except PyErr (Option String)
  | [] => .error .valueError
  | x :: rest =>
    .ok (rest.foldl (fun best y => if y.2 > best.2 then y else best) x).1

/-- `compute_election_winner` (source lines 143–156): keep only ballots whose
persisted status string equals `BallotStatus.BALLOT_COUNTED.value`, tally
their `chosen_candidate_id`s, and take the plurality maximum — `max` over
the tally dictionary, which raises `ValueError` when the dictionary is
empty. -/
def compute_election_winner (st : VotingStore) : Except PyErr (Option String) :=
  let ballot_list := (st.get_all_ballots.filter
    (fun b => pyEqOptStr b.2 BallotStatus.ballotCounted.value)).map Prod.fst
  let counts := ballot_list.foldl
    (fun d b => tallyInsert d b.chosen_candidate_id) []
  pyMaxByCount counts

/-! ## Concrete fixtures used by the claim theorems -/

/-- The national ID used in the spec's scenarios. -/
def nidV : String := "111-11-1111"

/-- The obfuscated key under which voter V is stored. -/
def obfV : String := obfuscate_national_id nidV

/-- Encrypted first name of the fixture voter. -/
def bundleFirst : NameBundle := encrypt_name "John" "nonceF"

/-- Encrypted last name of the fixture voter. -/
def bundleLast : NameBundle := encrypt_name "Smith" "nonceL"

/-- Voter row in state `REGISTERED_NOT_VOTED`. -/
def rowRegistered : VoterRow := ⟨bundleFirst, bundleLast, .registeredNotVoted⟩

/-- Voter row in state `BALLOT_COUNTED`. -/
def rowCounted : VoterRow := ⟨bundleFirst, bundleLast, .ballotCounted⟩

/-- Voter row in state `FRAUD_COMMITTED`. -/
def rowFraud : VoterRow := ⟨bundleFirst, bundleLast, .fraudCommitted⟩

/-- A ballot number issued to V with salt `"salt0"`. -/
def bnV : BallotNumber := generate_ballot_number nidV "salt0"

/-- A freshly inserted (uncast) ballot row: all three columns `NULL`. -/
def uncastRow : BallotRow := ⟨none, none, none⟩

/-- Request ballot for `bnV` with a valid candidate and empty comments. -/
def requestBallot : Ballot := ⟨bnV, some "1", some ""⟩

example : get_voter_status ⟨[], [(obfV, rowCounted)], []⟩ nidV = .ballotCounted := by
  decide
example :
    verify_ballot ⟨[], [(obfV, rowCounted)], [(bnV, uncastRow)]⟩ nidV bnV = true := by
  decide

/-! ## Claim theorems: counting and invalidation (C1, C2, C3, C5, C6) -/

/-- C1 (code evaluated at the claim's failing input).  Voter V is stored with
status `BallotCounted` and an uncast ballot bound to V's national ID exists.
The claim says `count_ballot` returns `FraudCommitted`, sets the stored
status to `FraudCommitted` and deletes the ballot row.  The code instead
reaches the fraud branch and immediately raises `AttributeError`:
`count_ballot` passes the *string* `VoterStatus.FRAUD_COMMITTED.value` to
`VotingStore.update_voter_status`, which evaluates `status.value` on it.
The store is left completely unchanged — the voter keeps status
`BallotCounted` and the second ballot's row still exists. -/
theorem countBallot_double_vote_raises_attributeError :
    count_ballot ⟨[], [(obfV, rowCounted)], [(bnV, uncastRow)]⟩ requestBallot nidV =
      (.error .attributeError, ⟨[], [(obfV, rowCounted)], [(bnV, uncastRow)]⟩) ∧
    count_ballot ⟨[], [(obfV, rowFraud)], [(bnV, uncastRow)]⟩ requestBallot nidV =
      (.error .attributeError, ⟨[], [(obfV, rowFraud)], [(bnV, uncastRow)]⟩) := by
  exact ⟨rfl, rfl⟩

/-- C2 (code evaluated at the claim's failing input).  Voter V is stored with
status `RegisteredNotVoted` and an uncast ballot bound to V's national ID
exists; the request carries a candidate and empty comments.  The claim says
`count_ballot` returns `BallotCounted` and writes the ballot row and voter
status.  The code instead takes the *fraud* branch — `voter_status` is a
`VoterStatus` enum member, so the comparison with the string
`VoterStatus.REGISTERED_NOT_VOTED.value` is always unequal — and then
raises `AttributeError` inside `update_voter_status`, leaving the store
unchanged.  The success branch of `count_ballot` is unreachable. -/
theorem countBallot_first_count_raises_attributeError :
    count_ballot ⟨[], [(obfV, rowRegistered)], [(bnV, uncastRow)]⟩ requestBallot nidV =
      (.error .attributeError, ⟨[], [(obfV, rowRegistered)], [(bnV, uncastRow)]⟩) := by
  exact rfl

/-- C3 (code evaluated at the claim's failing input).  A ballot row exists
and is uncast.  The claim says `invalidate_ballot` returns `true` and
deletes the row.  The code returns `false` and deletes nothing, for two
independent reasons: a freshly issued row holds SQL `NULL` (Python `None`)
in all three columns, not empty strings, and the guard
`status and status == ""` is unsatisfiable — it requires `status` to be
simultaneously truthy and equal to the falsy `""`.  Even a row that
literally holds three empty strings is refused (second conjunct), and a
cast ballot is also refused (third conjunct). -/
theorem invalidateBallot_never_succeeds_concrete :
    invalidate_ballot ⟨[], [], [(bnV, uncastRow)]⟩ bnV =
      (false, ⟨[], [], [(bnV, uncastRow)]⟩) ∧
    invalidate_ballot ⟨[], [], [(bnV, ⟨some "", some "", some ""⟩)]⟩ bnV =
      (false, ⟨[], [], [(bnV, ⟨some "", some "", some ""⟩)]⟩) ∧
    invalidate_ballot
        ⟨[], [], [(bnV, ⟨some "1", some "", some "ballot counted"⟩)]⟩ bnV =
      (false, ⟨[], [], [(bnV, ⟨some "1", some "", some "ballot counted"⟩)]⟩) := by
  refine ⟨by decide, by decide, by decide⟩

/-- C5 (code evaluated at the claim's failing input).  Voter V is registered
and no ballot row exists for the presented ballot number.  The claim says
`count_ballot` returns `InvalidBallot` and raises nothing.  The code raises
`TypeError`: `VotingStore.get_ballot` subscripts the `None` returned by
`fetchone()` without a guard, and `count_ballot` does not catch it. -/
theorem countBallot_unknown_ballot_raises_typeError :
    count_ballot ⟨[], [(obfV, rowRegistered)], []⟩ requestBallot nidV =
      (.error .typeError, ⟨[], [(obfV, rowRegistered)], []⟩) := by
  exact rfl

/-- C6 (code evaluated at the claim's failing input).  No voter is stored.
The claim says `count_ballot` returns `VoterNotRegistered` regardless of the
ballot supplied, and that `issue_ballot` returns `None` without minting a
ballot.  The issuance half is true (second and third conjuncts).  The
counting half fails: `get_voter_status` returns the enum member
`VoterStatus.NOT_REGISTERED`, the comparison with the string
`VoterStatus.NOT_REGISTERED.value` is `False`, so the guard never fires and
the code falls through to `get_ballot`, raising `TypeError` here (first
conjunct); with a stored ballot it would return `VoterBallotMismatch`
(fourth conjunct) — never `VoterNotRegistered`. -/
theorem countBallot_unregistered_voter_falls_through :
    count_ballot ⟨[], [], []⟩ requestBallot nidV = (.error .typeError, ⟨[], [], []⟩) ∧
    issue_ballot ⟨[], [], []⟩ nidV "salt0" = (none, ⟨[], [], []⟩) ∧
    (issue_ballot ⟨[], [], []⟩ nidV "salt0").2.ballots = ([] : List (BallotNumber × BallotRow)) ∧
    count_ballot ⟨[], [], [(generate_ballot_number "222-22-2222" "s2", uncastRow)]⟩
        ⟨generate_ballot_number "222-22-2222" "s2", some "1", some ""⟩ nidV =
      (.ok .voterBallotMismatch,
        ⟨[], [], [(generate_ballot_number "222-22-2222" "s2", uncastRow)]⟩) := by
  exact ⟨rfl, rfl, rfl, rfl⟩

/-! ## Claim theorems: name encryption round trip (C7) -/

/-- C7, counterexample.  The claim states `decryptName(encryptName(n)) == n`
for *every* name `n`; `encrypt_name` strips its input first (source line 44),
so a name with surrounding whitespace does not round-trip. -/
theorem encryptName_roundtrip_fails_on_padded_name :
    decrypt_name (encrypt_name " John" "nonce0") = .ok "John" ∧
    decrypt_name (encrypt_name " John" "nonce0") ≠ .ok " John" := by
  exact ⟨rfl, by intro h; injection h with h'; exact absurd h' (by decide)⟩

/-- C7, amended: for every name `n` and nonce, decrypting the encryption of
`n` yields the whitespace-stripped `n` (hence `n` itself whenever `n` has no
surrounding whitespace), and two encryptions of the same name with distinct
nonces — encryption is non-deterministic, drawing a fresh random nonce per
call — produce different ciphertext bundles. -/
theorem encryptName_roundtrip_strips (n nonce n1 n2 : String) (h : n1 ≠ n2) :
    decrypt_name (encrypt_name n nonce) = .ok (pyStrip n) ∧
    encrypt_name n n1 ≠ encrypt_name n n2 := by
  constructor
  · simp [decrypt_name, encrypt_name]
  · intro hc
    exact h (congrArg NameBundle.nonce hc)

/-- C7, witness for `encryptName_roundtrip_strips` at a concrete input. -/
theorem encryptName_roundtrip_strips_witness :
    decrypt_name (encrypt_name "Linda" "na") = .ok (pyStrip "Linda") ∧
    encrypt_name "Linda" "na" ≠ encrypt_name "Linda" "nb" :=
  encryptName_roundtrip_strips "Linda" "na" "na" "nb" (by decide)

/-! ## Claim theorems: ballot binding (C4) -/

/-- C4, counterexample.  The claim states that
`verifyBinding(x, generateBindingToken(x, s))` is true for every `x` and
`s`, unconditionally.  `verify_ballot` first fetches the ballot from the
store and returns `False` when the row is absent (the raised lookup error is
swallowed by the catch-all), so with an empty store the round trip is
`false`. -/
theorem verifyBallot_false_without_stored_row :
    verify_ballot ⟨[], [], []⟩ "111-11-1111"
      (generate_ballot_number "111-11-1111" "s1") = false := by
  exact rfl

/-- C4, amended: provided a ballot row with the generated number exists in
the store, `verify_ballot x (generate_ballot_number x s)` is true; for any
`y` whose sanitized form differs from `x`'s, `verify_ballot y
(generate_ballot_number x s)` is false regardless of the store; and a ballot
number that fails to decode verifies as false.  `verify_ballot` is a total
`Bool`-valued function — the catch-all `except` converts every raised error
into `False`, so it never throws to its caller. -/
theorem verifyBallot_binding_correct (st : VotingStore) (x y s raw : String) :
    ((assocFind st.ballots (generate_ballot_number x s)).isSome →
      verify_ballot st x (generate_ballot_number x s) = true) ∧
    (sanitizeId y ≠ sanitizeId x →
      verify_ballot st y (generate_ballot_number x s) = false) ∧
    verify_ballot st x (.malformed raw) = false := by
  refine ⟨?_, ?_, ?_⟩
  · intro hsome
    unfold verify_ballot VotingStore.get_ballot
    cases hfind : assocFind st.ballots (generate_ballot_number x s) with
    | none => rw [hfind] at hsome; simp at hsome
    | some row => simp [generate_ballot_number]
  · intro hne
    unfold verify_ballot VotingStore.get_ballot
    cases hfind : assocFind st.ballots (generate_ballot_number x s) with
    | none => rfl
    | some row =>
      simp only [generate_ballot_number, bindingValue, decide_eq_false_iff_not]
      intro hc
      injection hc with h1 h2
      exact hne h2
  · unfold verify_ballot VotingStore.get_ballot
    cases hfind : assocFind st.ballots (.malformed raw) with
    | none => rfl
    | some row => rfl

/-- C4, witness for `verifyBallot_binding_correct` at concrete inputs. -/
theorem verifyBallot_binding_correct_witness :
    verify_ballot ⟨[], [], [(generate_ballot_number "111-11-1111" "s1", uncastRow)]⟩
      "111-11-1111" (generate_ballot_number "111-11-1111" "s1") = true ∧
    verify_ballot ⟨[], [], [(generate_ballot_number "111-11-1111" "s1", uncastRow)]⟩
      "222-22-2222" (generate_ballot_number "111-11-1111" "s1") = false ∧
    verify_ballot ⟨[], [], [(generate_ballot_number "111-11-1111" "s1", uncastRow)]⟩
      "111-11-1111" (.malformed "not-base64-json") = false := by
  have h := verifyBallot_binding_correct
    ⟨[], [], [(generate_ballot_number "111-11-1111" "s1", uncastRow)]⟩
    "111-11-1111" "222-22-2222" "s1" "not-base64-json"
  exact ⟨h.1 (by decide), h.2.1 (by decide), h.2.2⟩

/-! ## Claim theorem: election winner (C10) -/

/-- Filtering after mapping equals mapping the pre-filtered list and
filtering again, when the predicates agree across the map. -/
theorem filter_map_agree {α β : Type} (f : α → β) (q : β → Bool) (p : α → Bool)
    (hpq : ∀ a, q (f a) = p a) (l : List α) :
    (l.map f).filter q = ((l.filter p).map f).filter q := by
  induction l with
  | nil => rfl
  | cons a l ih =>
    by_cases hp : p a = true
    · simp [List.filter_cons, hpq a, hp, ih]
    · have hq : q (f a) = false := by
        rw [hpq a]; exact Bool.not_eq_true _ ▸ (Bool.eq_false_iff.mpr hp)
      simp only [List.map_cons, List.filter_cons, hq, hp]
      simpa using ih

/-- The status filter `compute_election_winner` applies to a stored ballot
row. -/
def countedRow (r : BallotNumber × BallotRow) : Bool :=
  pyEqOptStr r.2.status BallotStatus.ballotCounted.value

/-- C10: `compute_election_winner` is partial — whenever no stored ballot
row has persisted status string `BallotStatus.BALLOT_COUNTED.value`, the
tally dictionary is empty and Python's `max` raises `ValueError` instead of
returning a candidate (first conjunct); and the winner computation only
considers rows whose stored status equals `BallotStatus.BALLOT_COUNTED.value`
— restricting the ballots table to exactly those rows changes nothing
(second conjunct). -/
theorem computeElectionWinner_partial_and_counted_only (st : VotingStore) :
    ((∀ r ∈ st.ballots, countedRow r = false) →
      compute_election_winner st = .error .valueError) ∧
    compute_election_winner st =
      compute_election_winner ⟨st.candidates, st.voters, st.ballots.filter countedRow⟩ := by
  constructor
  · intro hnone
    unfold compute_election_winner
    have hfil : st.get_all_ballots.filter
        (fun b => pyEqOptStr b.2 BallotStatus.ballotCounted.value) = [] := by
      rw [List.filter_eq_nil_iff]
      intro b hb
      unfold VotingStore.get_all_ballots at hb
      obtain ⟨r, hr, hrb⟩ := List.mem_map.mp hb
      have := hnone r hr
      unfold countedRow at this
      subst hrb
      simp [this]
    rw [hfil]
    rfl
  · unfold compute_election_winner
    have h := filter_map_agree
      (fun e : BallotNumber × BallotRow =>
        ((⟨e.1, e.2.chosen_candidate_id, e.2.voter_comments⟩ : Ballot), e.2.status))
      (fun b => pyEqOptStr b.2 BallotStatus.ballotCounted.value)
      countedRow (fun a => rfl) st.ballots
    unfold VotingStore.get_all_ballots
    rw [h]

/-- C10, witness for `computeElectionWinner_partial_and_counted_only`:
on a store with one uncast ballot (status `NULL`) and one ballot invalidated
to an unrelated status, the winner computation raises `ValueError`. -/
theorem computeElectionWinner_partial_witness :
    compute_election_winner ⟨["A"], [], [(bnV, uncastRow)]⟩ = .error .valueError :=
  (computeElectionWinner_partial_and_counted_only
    ⟨["A"], [], [(bnV, uncastRow)]⟩).1 (by decide)

/-! ## Claim theorem: the fraud trapdoor (C9) -/

/-- The guard of `invalidate_ballot` demands a status that is simultaneously
truthy and equal to the falsy empty string. -/
theorem truthy_and_empty_false (o : Option String) :
    (pyTruthyOptStr o && pyEqOptStr o "") = false := by
  cases o with
  | none => rfl
  | some s => by_cases h : s = "" <;> simp [pyTruthyOptStr, pyEqOptStr, h]

/-- `invalidate_ballot` can never succeed: for every store and every ballot
number it returns `False` and leaves the store untouched (its guard is the
unsatisfiable `status and status == ""`). -/
theorem invalidate_ballot_noop (st : VotingStore) (bn : BallotNumber) :
    invalidate_ballot st bn = (false, st) := by
  unfold invalidate_ballot
  cases h : st.get_ballot bn with
  | error e => rfl
  | ok pr =>
    obtain ⟨ballot, status⟩ := pr
    have hc := truthy_and_empty_false status
    cases status with
    | none => simp [Ballot.pyTruthy, pyTruthyOptStr]
    | some s =>
      by_cases hs : s = "" <;> simp [Ballot.pyTruthy, pyTruthyOptStr, pyEqOptStr, hs]

/-- `count_ballot` never changes the store, on any input: every reachable
branch either returns with the store as it was or raises before any write —
the fraud branch raises `AttributeError` inside `update_voter_status`
before touching the voters table, and the success branch (the only one that
writes) is unreachable because the enum-vs-string comparison
`voter_status != VoterStatus.REGISTERED_NOT_VOTED.value` is always true. -/
theorem count_ballot_store_unchanged (st : VotingStore) (b : Ballot)
    (nid : String) : (count_ballot st b nid).2 = st := by
  unfold count_ballot
  cases h : st.get_ballot b.ballot_number with
  | error e => rfl
  | ok pr =>
    obtain ⟨eb, stt⟩ := pr
    cases hv : verify_ballot st nid b.ballot_number with
    | false => simp [enumEqStr, Ballot.pyTruthy, hv]
    | true =>
      simp [enumEqStr, Ballot.pyTruthy, hv, VotingStore.update_voter_status]

/-- `issue_ballot` never touches the voters table. -/
theorem issue_ballot_voters_unchanged (st : VotingStore) (nid salt : String) :
    (issue_ballot st nid salt).2.voters = st.voters := by
  unfold issue_ballot VotingStore.add_ballot
  dsimp only
  cases h : st.get_voter (obfuscate_national_id nid) with
  | none => rfl
  | some r =>
    by_cases hp : (assocFind st.ballots (generate_ballot_number nid salt)).isSome <;>
      simp [hp]

/-- A key found in `l` is still found, with the same row, after appending. -/
theorem assocFind_append_of_some {α β : Type} [DecidableEq α]
    (l l2 : List (α × β)) (k : α) (v : β) (h : assocFind l k = some v) :
    assocFind (l ++ l2) k = some v := by
  induction l with
  | nil => simp [assocFind] at h
  | cons e l ih =>
    obtain ⟨ek, ev⟩ := e
    unfold assocFind at h ⊢
    by_cases hk : ek = k
    · simpa [hk] using h
    · rw [List.cons_append]
      simp only [assocFind, if_neg hk] at h ⊢
      exact ih h

/-- Deleting one key leaves lookups of every other key unchanged. -/
theorem assocFind_erase_ne {α β : Type} [DecidableEq α]
    (l : List (α × β)) (key k : α) (h : k ≠ key) :
    assocFind (assocErase l key) k = assocFind l k := by
  induction l with
  | nil => rfl
  | cons e l ih =>
    obtain ⟨ek, ev⟩ := e
    by_cases hk : ek = key
    · have hek : ek ≠ k := by rw [hk]; exact fun hc => h hc.symm
      simp only [assocErase, if_pos hk, assocFind, if_neg hek]
      exact ih
    · by_cases hek : ek = k
      · simp only [assocErase, if_neg hk, assocFind, if_pos hek]
      · simp only [assocErase, if_neg hk, assocFind, if_neg hek]
        exact ih

/-- The stored status of the voter at key `k`. -/
def voterStatusAt (st : VotingStore) (k : String) : Option VoterStatus :=
  (assocFind st.voters k).map (fun r => r.status)

/-- C9: fraud is a one-way trapdoor.  For every store state holding a voter
row with status `FraudCommitted` at key `k`, none of the lifecycle
operations moves that voter out of `FraudCommitted`: `count_ballot` leaves
the entire store unchanged (its only status write raises `AttributeError`
first), `issue_ballot` and `invalidate_ballot` never touch the voters
table, voter registration either fails on the duplicate key or inserts a
different key, and de-registration either refuses or deletes a different
voter; moreover `de_register_voter` invoked on the fraudulent voter's own
national ID returns `False` and deletes nothing (last conjunct). -/
theorem fraud_is_trapdoor (st : VotingStore) (k : String) (row : VoterRow)
    (b : Ballot) (nid nidIssue salt nidDereg : String) (bn : BallotNumber)
    (v : Voter) (n1 n2 : String)
    (hk : assocFind st.voters k = some row)
    (hf : row.status = .fraudCommitted) :
    (count_ballot st b nid).2 = st ∧
    (issue_ballot st nidIssue salt).2.voters = st.voters ∧
    invalidate_ballot st bn = (false, st) ∧
    voterStatusAt (register_voter st v n1 n2).2 k = some .fraudCommitted ∧
    voterStatusAt (de_register_voter st nidDereg).2 k = some .fraudCommitted ∧
    (obfuscate_national_id nidDereg = k →
      de_register_voter st nidDereg = (false, st)) := by
  refine ⟨count_ballot_store_unchanged st b nid,
          issue_ballot_voters_unchanged st nidIssue salt,
          invalidate_ballot_noop st bn, ?_, ?_, ?_⟩
  · unfold register_voter VotingStore.add_voter voterStatusAt
    dsimp only
    by_cases hp :
        (assocFind st.voters (obfuscate_national_id v.national_id)).isSome
    · simp only [hp, if_true]
      rw [hk]
      simp [hf]
    · simp only [hp, if_false]
      simp only [Bool.false_eq_true, if_false]
      rw [assocFind_append_of_some _ _ _ _ hk]
      simp [hf]
  · unfold de_register_voter voterStatusAt
    dsimp only
    cases hg : st.get_voter (obfuscate_national_id nidDereg) with
    | none => rw [hk]; simp [hf]
    | some r =>
      by_cases hr : r.status = .fraudCommitted
      · simp only [enumEqEnum, hr]
        simp only [decide_eq_true_eq, if_true, if_pos trivial]
        rw [hk]
        simp [hf]
      · have hne : k ≠ obfuscate_national_id nidDereg := by
          intro hc
          rw [← hc] at hg
          unfold VotingStore.get_voter at hg
          rw [hk] at hg
          injection hg with hg'
          rw [← hg'] at hr
          exact hr hf
        have hrd : enumEqEnum r.status .fraudCommitted = false := by
          simp [enumEqEnum, hr]
        simp only [hrd, Bool.false_eq_true, if_false]
        unfold VotingStore.delete_voter
        dsimp only
        rw [assocFind_erase_ne _ _ _ hne, hk]
        simp [hf]
  · intro hobf
    unfold de_register_voter VotingStore.get_voter
    dsimp only
    rw [hobf, hk]
    simp [enumEqEnum, hf]

/-- C9, witness for `fraud_is_trapdoor`: a store holding one fraudulent
voter, exercised with the scenario's concrete arguments. -/
theorem fraud_is_trapdoor_witness :
    (count_ballot ⟨[], [(obfV, rowFraud)], []⟩ requestBallot nidV).2 =
      ⟨[], [(obfV, rowFraud)], []⟩ ∧
    (issue_ballot ⟨[], [(obfV, rowFraud)], []⟩ nidV "salt0").2.voters =
      [(obfV, rowFraud)] ∧
    invalidate_ballot ⟨[], [(obfV, rowFraud)], []⟩ bnV =
      (false, ⟨[], [(obfV, rowFraud)], []⟩) ∧
    voterStatusAt (register_voter ⟨[], [(obfV, rowFraud)], []⟩
      ⟨"John", "Smith", nidV⟩ "nA" "nB").2 obfV = some .fraudCommitted ∧
    voterStatusAt (de_register_voter ⟨[], [(obfV, rowFraud)], []⟩ nidV).2 obfV =
      some .fraudCommitted ∧
    (obfuscate_national_id nidV = obfV →
      de_register_voter ⟨[], [(obfV, rowFraud)], []⟩ nidV =
        (false, ⟨[], [(obfV, rowFraud)], []⟩)) :=
  fraud_is_trapdoor ⟨[], [(obfV, rowFraud)], []⟩ obfV rowFraud
    requestBallot nidV nidV "salt0" nidV bnV ⟨"John", "Smith", nidV⟩ "nA" "nB"
    (by decide) rfl

/-! ## Claim theorems: redaction idempotence on marker-only text (C8) -/

/-- A pattern that does not occur in `s` is not replaced: `pyReplaceAux` is
the identity, for any fuel. -/
theorem pyReplaceAux_id (repl pat : List Char) :
    ∀ (fuel : Nat) (s : List Char), containsSub s pat = false →
      pyReplaceAux repl pat fuel s = s := by
  intro fuel
  induction fuel with
  | zero =>
    intro s h
    cases s with
    | nil =>
      unfold containsSub at h
      cases pat with
      | nil => simp [List.isPrefixOf] at h
      | cons p pr => rfl
    | cons c t => rfl
  | succ f ih =>
    intro s h
    cases s with
    | nil =>
      unfold containsSub at h
      cases pat with
      | nil => simp [List.isPrefixOf] at h
      | cons p pr => rfl
    | cons c t =>
      unfold containsSub at h
      rw [Bool.or_eq_false_iff] at h
      obtain ⟨hpre, htail⟩ := h
      have hne : pat.isEmpty = false := by
        cases pat with
        | nil => simp [List.isPrefixOf] at hpre
        | cons p pr => rfl
      unfold pyReplaceAux
      rw [hne, hpre]
      simp only [Bool.false_eq_true, if_false]
      rw [ih t htail]

/-- `str.replace` is the identity when the pattern does not occur. -/
theorem pyReplaceS_id (s pat repl : String)
    (h : containsSub s.data pat.data = false) : pyReplaceS s pat repl = s := by
  unfold pyReplaceS pyReplace
  rw [pyReplaceAux_id _ _ _ _ h]

/-- Folding `str.replace` over names none of which occur in the text leaves
the text unchanged. -/
theorem foldl_replace_id (M : String) :
    ∀ (names : List String) (t : String),
      (∀ n ∈ names, containsSub t.data n.data = false) →
      names.foldl (fun t n => pyReplaceS t n M) t = t := by
  intro names
  induction names with
  | nil => intro t _; rfl
  | cons n ns ih =>
    intro t h
    rw [List.foldl_cons, pyReplaceS_id t n M (h n (List.mem_cons_self n ns))]
    exact ih t fun m hm => h m (List.mem_cons_of_mem n hm)

/-- Every element surviving deduplication came from the original list. -/
theorem dedupAux_subset :
    ∀ (l seen : List String) (x : String), x ∈ dedupAux l seen → x ∈ l := by
  intro l
  induction l with
  | nil => intro seen x hx; simp [dedupAux] at hx
  | cons a l ih =>
    intro seen x hx
    unfold dedupAux at hx
    by_cases ha : a ∈ seen
    · simp only [ha, if_true] at hx
      exact List.mem_cons_of_mem a (ih seen x hx)
    · simp only [ha, if_false] at hx
      rcases List.mem_cons.mp hx with hx1 | hx1
      · exact hx1 ▸ List.mem_cons_self a l
      · exact List.mem_cons_of_mem a (ih (a :: seen) x hx1)

/-- Every element of `dedupL l` is an element of `l`. -/
theorem dedupL_subset (l : List String) (x : String) (hx : x ∈ dedupL l) :
    x ∈ l :=
  dedupAux_subset l [] x hx

/-- If every element decrypts to a value satisfying `P`, `decryptAll`
succeeds and every decrypted name satisfies `P`. -/
theorem decryptAll_ok (get : VoterRow → NameBundle) (P : String → Prop) :
    ∀ l : List (String × VoterRow),
      (∀ v ∈ l, ∃ n, decrypt_name (get v.2) = .ok n ∧ P n) →
      ∃ ns, decryptAll get l = .ok ns ∧ ∀ n ∈ ns, P n := by
  intro l
  induction l with
  | nil => intro _; exact ⟨[], rfl, by simp⟩
  | cons v vs ih =>
    intro h
    obtain ⟨n, hn, hPn⟩ := h v (List.mem_cons_self v vs)
    obtain ⟨ns, hns, hPs⟩ := ih fun w hw => h w (List.mem_cons_of_mem v hw)
    refine ⟨n :: ns, ?_, ?_⟩
    · unfold decryptAll
      rw [hn]
      show (decryptAll get vs).bind _ = _
      rw [hns]
      rfl
    · intro m hm
      rcases List.mem_cons.mp hm with hm1 | hm1
      · exact hm1 ▸ hPn
      · exact hPs m hm1

/-- `takeWhile` of a class absent from the list is empty. -/
theorem takeWhile_eq_nil_of_none (p : Char → Bool) (s : List Char)
    (h : ∀ c ∈ s, p c = false) : s.takeWhile p = [] := by
  cases s with
  | nil => rfl
  | cons c t =>
    unfold List.takeWhile
    rw [h c (List.mem_cons_self c t)]

/-- `consumeN` of a positive count fails when no character of the input lies
in the class. -/
theorem consumeN_pos_none (p : Char → Bool) (n : Nat) (prev : Option Char)
    (s : List Char) (h : ∀ c ∈ s, p c = false) :
    consumeN p (n + 1) prev s = none := by
  cases s with
  | nil => rfl
  | cons c t =>
    unfold consumeN
    rw [h c (List.mem_cons_self c t)]
    rfl

/-- A sequence starting with `X{n+1}` cannot match when no character of the
input lies in class `X`. -/
theorem matchItems_rep_none (p : Char → Bool) (n : Nat) (rest : List RItem)
    (prev : Option Char) (s : List Char) (h : ∀ c ∈ s, p c = false) :
    matchItems (.rep p (n + 1) :: rest) prev s = none := by
  unfold matchItems
  rw [consumeN_pos_none p n prev s h]

/-- A sequence starting with a single-character class cannot match when no
character of the input lies in the class. -/
theorem matchItems_cls_none (p : Char → Bool) (rest : List RItem)
    (prev : Option Char) (s : List Char) (h : ∀ c ∈ s, p c = false) :
    matchItems (.cls p :: rest) prev s = none := by
  cases s with
  | nil => rfl
  | cons c t =>
    unfold matchItems
    rw [h c (List.mem_cons_self c t)]
    rfl

/-- A sequence starting with `X+` cannot match when no character of the
input lies in class `X`. -/
theorem matchItems_plus_none (p : Char → Bool) (rest : List RItem)
    (prev : Option Char) (s : List Char) (h : ∀ c ∈ s, p c = false) :
    matchItems (.plus p :: rest) prev s = none := by
  unfold matchItems
  rw [takeWhile_eq_nil_of_none p s h]
  rfl

/-- `tryLens` fails when the continuation fails at every split point. -/
theorem tryLens_none (cont : Option Char → List Char → Option (List Char))
    (s : List Char) (lo : Nat)
    (h : ∀ j : Nat, cont s[j]? (s.drop (j + 1)) = none) :
    ∀ K, tryLens cont s lo K = none := by
  intro K
  induction K with
  | zero => rfl
  | succ k ih =>
    unfold tryLens
    by_cases hk : k + 1 < lo
    · rw [if_pos hk]
    · rw [if_neg hk, h k, ih]

/-- The phone pattern cannot match digit-free input. -/
theorem phone_match_none (prev : Option Char) (s : List Char)
    (h : ∀ c ∈ s, isDigitC c = false) :
    matchItems phonePattern prev s = none := by
  have hrep : ∀ (pr : Option Char) (t : List Char),
      (∀ c ∈ t, isDigitC c = false) →
      matchItems (RItem.rep isDigitC 3 :: RItem.opt (· = ')') ::
        RItem.opt (fun c => c = '-' || isSpaceC c) :: RItem.rep isDigitC 3 ::
        RItem.opt (fun c => c = '-' || isSpaceC c) :: RItem.rep isDigitC 4 :: []) pr t = none :=
    fun pr t ht => matchItems_rep_none isDigitC 2 _ pr t ht
  show matchItems (RItem.opt (· = '(') :: _) prev s = none
  unfold matchItems
  cases s with
  | nil => exact hrep prev [] (by simp)
  | cons c t =>
    dsimp only
    by_cases hc : (decide (c = '(')) = true
    · rw [if_pos hc]
      rw [hrep (some c) t (fun d hd => h d (List.mem_cons_of_mem c hd)),
        hrep prev (c :: t) h]
    · rw [if_neg hc]
      exact hrep prev (c :: t) h

/-- The email pattern cannot match input containing no `@`. -/
theorem email_match_none (prev : Option Char) (s : List Char)
    (h : ∀ c ∈ s, c ≠ '@') :
    matchItems emailPattern prev s = none := by
  show matchItems (RItem.wordB :: RItem.plus _ :: RItem.cls (· = '@') :: _) prev s = none
  unfold matchItems
  by_cases hb : atWordBoundary prev s = true
  · rw [if_pos hb]
    unfold matchItems
    cases hl : ((s.takeWhile fun c =>
        c.isAlphanum || c = '.' || c = '_' || c = '%' || c = '+' || c = '-').length) with
    | zero => rfl
    | succ m =>
      cases s with
      | nil => rfl
      | cons c t =>
        dsimp only
        apply tryLens_none
        intro j
        apply matchItems_cls_none
        intro d hd
        have hds : d ∈ c :: t := List.drop_subset (j + 1) (c :: t) hd
        simp [h d hds]
  · rw [if_neg hb]

/-- The bare-9-digit national-ID pattern cannot match digit-free input. -/
theorem id0_match_none (prev : Option Char) (s : List Char)
    (h : ∀ c ∈ s, isDigitC c = false) :
    matchItems nationalIdPattern0 prev s = none := by
  show matchItems (RItem.wordB :: _) prev s = none
  unfold matchItems
  by_cases hb : atWordBoundary prev s = true
  · rw [if_pos hb]
    exact matchItems_rep_none isDigitC 8 _ prev s h
  · rw [if_neg hb]

/-- The dash-separated national-ID pattern cannot match digit-free input. -/
theorem id1_match_none (prev : Option Char) (s : List Char)
    (h : ∀ c ∈ s, isDigitC c = false) :
    matchItems nationalIdPattern1 prev s = none :=
  matchItems_plus_none isDigitC _ prev s h

/-- The space-separated national-ID pattern cannot match digit-free input. -/
theorem id2_match_none (prev : Option Char) (s : List Char)
    (h : ∀ c ∈ s, isDigitC c = false) :
    matchItems nationalIdPattern2 prev s = none :=
  matchItems_plus_none isDigitC _ prev s h

/-- `re.sub` scanning is the identity when the pattern matches nowhere in
the input (characterised by a per-character property `Q` that the failure
lemma consumes). -/
theorem scanSubAux_id (pat : List RItem) (repl : List Char) (Q : Char → Prop)
    (hfail : ∀ (prev : Option Char) (t : List Char),
      (∀ c ∈ t, Q c) → matchItems pat prev t = none) :
    ∀ (fuel : Nat) (prev : Option Char) (s : List Char),
      (∀ c ∈ s, Q c) → scanSubAux pat repl fuel prev s = s := by
  intro fuel
  induction fuel with
  | zero => intro prev s _; rfl
  | succ f ih =>
    intro prev s h
    cases s with
    | nil => rfl
    | cons c t =>
      unfold scanSubAux
      rw [hfail prev (c :: t) h]
      rw [ih (some c) t fun d hd => h d (List.mem_cons_of_mem c hd)]

/-- `re.findall` returns nothing when the pattern matches nowhere. -/
theorem scanFindAux_nil (pat : List RItem) (Q : Char → Prop)
    (hfail : ∀ (prev : Option Char) (t : List Char),
      (∀ c ∈ t, Q c) → matchItems pat prev t = none) :
    ∀ (fuel : Nat) (prev : Option Char) (s : List Char),
      (∀ c ∈ s, Q c) → scanFindAux pat fuel prev s = [] := by
  intro fuel
  induction fuel with
  | zero => intro prev s _; rfl
  | succ f ih =>
    intro prev s h
    cases s with
    | nil => rfl
    | cons c t =>
      unfold scanFindAux
      rw [hfail prev (c :: t) h]
      rw [ih (some c) t fun d hd => h d (List.mem_cons_of_mem c hd)]

/-- Rebuilding a string from its characters is the identity. -/
theorem stringMk_data (s : String) : String.mk s.data = s := rfl

/-- `reSub` is the identity on strings where the pattern cannot match. -/
theorem reSub_id (pat : List RItem) (repl text : String) (Q : Char → Prop)
    (hfail : ∀ (prev : Option Char) (t : List Char),
      (∀ c ∈ t, Q c) → matchItems pat prev t = none)
    (h : ∀ c ∈ text.data, Q c) : reSub pat repl text = text := by
  unfold reSub
  rw [scanSubAux_id pat repl.data Q hfail _ none text.data h]

/-- `reFindall` is empty on strings where the pattern cannot match. -/
theorem reFindall_nil (pat : List RItem) (text : String) (Q : Char → Prop)
    (hfail : ∀ (prev : Option Char) (t : List Char),
      (∀ c ∈ t, Q c) → matchItems pat prev t = none)
    (h : ∀ c ∈ text.data, Q c) : reFindall pat text = [] := by
  unfold reFindall
  rw [scanFindAux_nil pat Q hfail _ none text.data h]
  rfl

/-- The four fixed redaction markers of `pii_detection.py`. -/
def markers : List String :=
  [REDACTED_PHONE_NUMBER, REDACTED_NAME, REDACTED_EMAIL, REDACTED_NATIONAL_ID]

/-- A character list that is a concatenation of redaction marker strings:
the claim's "text consisting only of the fixed redaction marker strings". -/
inductive MarkerOnly : List Char → Prop
  | nil : MarkerOnly []
  | cons (m : String) (hm : m ∈ markers) {rest : List Char}
      (h : MarkerOnly rest) : MarkerOnly (m.data ++ rest)

/-- No marker contains a digit or an `@`. -/
theorem marker_chars :
    ∀ m ∈ markers, ∀ c ∈ m.data, isDigitC c = false ∧ c ≠ '@' := by decide

/-- No character of a marker-only text is a digit or an `@`. -/
theorem markerOnly_chars {l : List Char} (h : MarkerOnly l) :
    ∀ c ∈ l, isDigitC c = false ∧ c ≠ '@' := by
  induction h with
  | nil => intro c hc; simp at hc
  | cons m hm h ih =>
    intro c hc
    rcases List.mem_append.mp hc with h1 | h2
    · exact marker_chars m hm c h1
    · exact ih c h2

/-- C8, counterexample.  The claim leaves the store unconstrained, but
`redact_free_text` replaces every stored voter and candidate name occurring
in the text.  With a candidate registered under the name `"NAME"`, the
already-redacted text `"[REDACTED NAME]"` is changed by redaction. -/
theorem redact_changes_marker_text :
    redact_free_text ⟨["NAME"], [], []⟩ "[REDACTED NAME]" =
      .ok "[REDACTED [REDACTED NAME]]" ∧
    redact_free_text ⟨["NAME"], [], []⟩ "[REDACTED NAME]" ≠
      .ok "[REDACTED NAME]" := by
  refine ⟨rfl, ?_⟩
  intro hc
  rw [(rfl : redact_free_text ⟨["NAME"], [], []⟩ "[REDACTED NAME]" =
    .ok "[REDACTED [REDACTED NAME]]")] at hc
  injection hc with hc'
  exact absurd hc' (by decide)

/-- C8, amended: for every text that is a concatenation of the fixed
redaction marker strings, and every store state in which all stored name
bundles decrypt and no decrypted voter first/last name and no candidate
name occurs as a substring of the text, `redact_free_text` returns the text
unchanged.  The name hypotheses are forced by the literal-replacement
passes (see the counterexample); the decryption hypothesis is forced
because `redact_free_text` decrypts every stored name before touching the
text and propagates `IntegrityError`.  The regex passes cannot fire: every
phone/national-ID match contains a digit and every email match contains an
`@`, while marker text contains neither. -/
theorem redact_marker_only_unchanged (st : VotingStore) (text : String)
    (hM : MarkerOnly text.data)
    (hFirst : ∀ v ∈ st.voters, ∃ n, decrypt_name v.2.first = .ok n ∧
      containsSub text.data n.data = false)
    (hLast : ∀ v ∈ st.voters, ∃ n, decrypt_name v.2.last = .ok n ∧
      containsSub text.data n.data = false)
    (hCand : ∀ nm ∈ st.candidates, containsSub text.data nm.data = false) :
    redact_free_text st text = .ok text := by
  obtain ⟨ns1, h1, hP1⟩ := decryptAll_ok (fun r => r.first)
    (fun n => containsSub text.data n.data = false) st.voters hFirst
  obtain ⟨ns2, h2, hP2⟩ := decryptAll_ok (fun r => r.last)
    (fun n => containsSub text.data n.data = false) st.voters hLast
  have hchars := markerOnly_chars hM
  unfold redact_free_text VotingStore.get_all_voters VotingStore.get_all_candidates
  dsimp only
  rw [h1, h2]
  dsimp only
  rw [foldl_replace_id REDACTED_NAME (dedupL ns1) text
    (fun n hn => hP1 n (dedupL_subset ns1 n hn))]
  rw [foldl_replace_id REDACTED_NAME (dedupL ns2) text
    (fun n hn => hP2 n (dedupL_subset ns2 n hn))]
  rw [foldl_replace_id REDACTED_NAME (dedupL st.candidates) text
    (fun n hn => hCand n (dedupL_subset st.candidates n hn))]
  rw [reSub_id phonePattern REDACTED_PHONE_NUMBER text
    (fun c => isDigitC c = false ∧ c ≠ '@')
    (fun prev t ht => phone_match_none prev t (fun c hc => (ht c hc).1)) hchars]
  rw [reSub_id emailPattern REDACTED_EMAIL text
    (fun c => isDigitC c = false ∧ c ≠ '@')
    (fun prev t ht => email_match_none prev t (fun c hc => (ht c hc).2)) hchars]
  rw [reFindall_nil nationalIdPattern0 text
    (fun c => isDigitC c = false ∧ c ≠ '@')
    (fun prev t ht => id0_match_none prev t (fun c hc => (ht c hc).1)) hchars]
  rw [List.foldl_nil]
  rw [reFindall_nil nationalIdPattern1 text
    (fun c => isDigitC c = false ∧ c ≠ '@')
    (fun prev t ht => id1_match_none prev t (fun c hc => (ht c hc).1)) hchars]
  rw [List.foldl_nil]
  rw [reFindall_nil nationalIdPattern2 text
    (fun c => isDigitC c = false ∧ c ≠ '@')
    (fun prev t ht => id2_match_none prev t (fun c hc => (ht c hc).1)) hchars]
  rw [List.foldl_nil]

/-- C8, witness for `redact_marker_only_unchanged`: one candidate
(`"Abraham"`, which does not occur in the text), no voters, and the text
consisting of the single name marker. -/
theorem redact_marker_only_unchanged_witness :
    redact_free_text ⟨["Abraham"], [], []⟩ "[REDACTED NAME]" =
      .ok "[REDACTED NAME]" :=
  redact_marker_only_unchanged ⟨["Abraham"], [], []⟩ "[REDACTED NAME]"
    (by
      have h0 := MarkerOnly.cons REDACTED_NAME (by simp [markers]) MarkerOnly.nil
      simpa using h0)
    (fun v hv => absurd hv (by simp))
    (fun v hv => absurd hv (by simp))
    (by decide)
